import Mathlib

/-
Shallow embedding of the ESPv2 service-control HTTP filter
(src/src/envoy/http/service_control/filter.cc) and proofs about it.

External collaborators (Envoy utilities, the config parser, the token
cache, the HTTP call client, protobuf JSON parsing and the check-response
translation routine) are modelled as an explicit environment record of
functions; outbound effects (token fetch, check call, report call, local
replies, counter increments, cancellations) are recorded as an event
trace.  Pointer fields of the C++ filter become Option values; a null
dereference is modelled as the Option monad returning none.  Wall-clock
timestamps (request_start_time) are outside the model.
-/

namespace ESPv2

/-- Abstract google.protobuf.util.Status: only the ok bit is consumed by
the filter. -/
structure Status where
  ok : Bool := true
deriving DecidableEq, Repr

/-- CheckResponseInfo fields read by the filter (filter.cc lines 259-262,
273). -/
structure CheckResponseInfo where
  is_api_key_valid : Bool := false
  service_is_activated : Bool := false
deriving DecidableEq, Repr

/-- CheckRequestInfo fields the filter assembles (filter.cc lines 158-163);
request_start_time is wall-clock time and is outside the model. -/
structure CheckRequestInfo where
  operation_id : String := ""
  operation_name : String := ""
  producer_project_id : String := ""
  api_key : String := ""
deriving DecidableEq, Repr

/-- ReportRequestInfo fields the filter assembles (filter.cc lines 254-279);
request_start_time is outside the model.  api_key defaults to the empty
string as the C++ std::string field does. -/
structure ReportRequestInfo where
  operation_id : String := ""
  operation_name : String := ""
  producer_project_id : String := ""
  api_key : String := ""
  api_method : String := ""
  api_name : String := ""
  api_version : String := ""
  log_message : String := ""
  url : String := ""
  method : String := ""
  check_response_info : CheckResponseInfo := {}
  response_code : Nat := 0
  status : Status := {}
  request_size : Nat := 0
  response_size : Nat := 0
deriving DecidableEq, Repr

/-- A credential source declared for an operation: the oneof key_case of
the APIKey proto (query / header / cookie / KEY_NOT_SET). -/
inductive APIKey
  | query (name : String)
  | header (name : String)
  | cookie (name : String)
  | notSet
deriving DecidableEq, Repr

/-- The api_key part of a requirement: allow_without_api_key plus the
declared credential sources in order. -/
structure APIKeyRequirement where
  allow_without_api_key : Bool := false
  api_keys : List APIKey := []
deriving DecidableEq, Repr

/-- The requirement resolved from (method, path) by the config parser. -/
structure Requirement where
  service_name : String := ""
  operation_name : String := ""
  api_name : String := ""
  api_version : String := ""
  api_key : APIKeyRequirement := {}
deriving DecidableEq, Repr

/-- The per-service configuration read through service_ctx_->config(). -/
structure ServiceConfig where
  producer_project_id : String := ""
  service_name : String := ""
  service_control_uri : String := ""
deriving DecidableEq, Repr

/-- The service context resolved from the requirement's service name. -/
structure ServiceContext where
  config : ServiceConfig := {}
deriving DecidableEq, Repr

/-- Opaque parsed check response message (the filter never inspects it
itself; it is handed to the conversion routine). -/
structure CheckResponsePb where
  raw : String := ""
deriving DecidableEq, Repr

/-- Request headers as the filter consumes them: method, the full path
(with query string), the header map (names stored lowercase, as Envoy
does) and the cookies visible through parseCookieValue. -/
structure HeaderMap where
  method : String := ""
  path : String := ""
  headers : List (String × String) := []
  cookies : List (String × String) := []
deriving DecidableEq, Repr

/-- Stream info fields read when building the report (filter.cc lines
274-279). -/
structure StreamInfo where
  responseCode : Option Nat := none
  bytesReceived : Nat := 0
  bytesSent : Nat := 0
deriving DecidableEq, Repr

/-- Filter state machine states.  Modelled from the spec: the state enum
lives in filter.h which is not in src/; spec section 4.2 names the states
Idle, Calling, Complete, Responded with Idle initial. -/
inductive State
  | Idle
  | Calling
  | Complete
  | Responded
deriving DecidableEq, Repr

/-- The outbound effects of the filter, recorded as a trace. -/
inductive Event
  | parseQuery (path : String)
  | fetchToken (service_name : String)
  | checkCall (uri : String) (suffix : String) (token : String)
      (info : CheckRequestInfo)
  | reportCall (uri : String) (suffix : String) (token : String)
      (info : ReportRequestInfo)
  | sendLocalReply (code : Nat) (message : String)
  | setResponseFlag
  | incDenied
  | incAllowed
  | continueDecoding
  | cancelToken
  | cancelCheck
deriving DecidableEq, Repr

/-- Return value of decodeHeaders. -/
inductive FilterHeadersStatus
  | Continue
  | StopIteration
deriving DecidableEq, Repr

/-- Return value of decodeData. -/
inductive FilterDataStatus
  | Continue
  | StopIterationAndWatermark
deriving DecidableEq, Repr

/-- Return value of decodeTrailers. -/
inductive FilterTrailersStatus
  | Continue
  | StopIteration
deriving DecidableEq, Repr

/-- The per-request mutable state of the Filter object.  Pointer members
(requirement_, service_ctx_) become Options; the cancellation closures
token_fetcher_ and check_call_ become Booleans recording non-nullness. -/
structure FilterState where
  uuid : String := ""
  requirement : Option Requirement := none
  service_ctx : Option ServiceContext := none
  operation_name : String := ""
  api_name : String := ""
  api_version : String := ""
  api_key : String := ""
  token : String := ""
  http_method : String := ""
  state : State := State.Idle
  stopped : Bool := false
  token_fetcher : Bool := false
  check_call : Bool := false
  check_status : Status := {}
  check_response_info : CheckResponseInfo := {}
  params_parsed : Bool := false
  parsed_params : List (String × String) := []
deriving DecidableEq, Repr

/-- The external collaborators the filter calls synchronously: the config
parser lookups, uuid generation, Envoy's query-string parser, protobuf
JSON deserialization and the check-response translation routine. -/
structure Env where
  FindRequirement : String → String → Option Requirement
  FindService : String → Option ServiceContext
  uuid : String
  parseQueryString : String → List (String × String)
  jsonToCheckResponse : String → Option CheckResponsePb
  convertCheckResponse : CheckResponsePb → String → Status × CheckResponseInfo

/-- Envoy Http::Utility::parseCookieValue: the named cookie's value, or
the empty string when the cookie is absent (absence and an empty value are
indistinguishable to the caller). -/
def parseCookieValue (hd : HeaderMap) (name : String) : String :=
  (hd.cookies.lookup name).getD ""

/-- HeaderMap::get with a LowerCaseString key.  Envoy stores header names
lowercase and lowercases the looked-up name, making the match
case-insensitive; the model takes both sides as already lowercase. -/
def headersGet (hd : HeaderMap) (name : String) : Option String :=
  hd.headers.lookup name

/-- Filter::ExtractAPIKeyFromQuery (filter.cc lines 31-45): parse the
query string once, cache it, then overwrite api_key_ whenever the
parameter is present (with whatever value it carries, empty included). -/
def ExtractAPIKeyFromQuery (env : Env) (hd : HeaderMap) (s : FilterState)
    (query : String) : FilterState × List Event :=
  let p :=
    if s.params_parsed = false then
      ({ s with parsed_params := env.parseQueryString hd.path,
                params_parsed := true }, [Event.parseQuery hd.path])
    else (s, [])
  match p.1.parsed_params.lookup query with
  | some v => ({ p.1 with api_key := v }, p.2)
  | none => (p.1, p.2)

/-- Filter::ExtractAPIKeyFromHeader (filter.cc lines 47-56): overwrite
api_key_ whenever the header entry exists, empty value included. -/
def ExtractAPIKeyFromHeader (hd : HeaderMap) (s : FilterState)
    (header : String) : FilterState :=
  match headersGet hd header with
  | some v => { s with api_key := v }
  | none => s

/-- Filter::ExtractAPIKeyFromCookie (filter.cc lines 58-67): overwrite
api_key_ only when parseCookieValue yields a non-empty string. -/
def ExtractAPIKeyFromCookie (hd : HeaderMap) (s : FilterState)
    (cookie : String) : FilterState :=
  let api_key := parseCookieValue hd cookie
  if api_key ≠ "" then { s with api_key := api_key } else s

/-- One iteration of the extraction loop (filter.cc lines 99-113): switch
on the key_case of the declared source. -/
def extractStep (env : Env) (hd : HeaderMap) (s : FilterState) :
    APIKey → FilterState × List Event
  | APIKey.query q => ExtractAPIKeyFromQuery env hd s q
  | APIKey.header h => (ExtractAPIKeyFromHeader hd s h, [])
  | APIKey.cookie c => (ExtractAPIKeyFromCookie hd s c, [])
  | APIKey.notSet => (s, [])

/-- The extraction loop over the declared sources, in declared order. -/
def extractLoop (env : Env) (hd : HeaderMap) (s : FilterState) :
    List APIKey → FilterState × List Event
  | [] => (s, [])
  | src :: rest =>
      let p1 := extractStep env hd s src
      let p2 := extractLoop env hd p1.1 rest
      (p2.1, p1.2 ++ p2.2)

/-- Filter::rejectRequest (filter.cc lines 178-185): increment the denied
counter, enter Responded, send the local reply, set the response flag. -/
def rejectRequest (s : FilterState) (code : Nat) (msg : String) :
    FilterState × List Event :=
  ({ s with state := State.Responded },
   [Event.incDenied, Event.sendLocalReply code msg, Event.setResponseFlag])

/-- Filter::decodeHeaders (filter.cc lines 69-131). -/
def decodeHeaders (env : Env) (s0 : FilterState) (hd : HeaderMap) :
    FilterState × List Event × FilterHeadersStatus :=
  let s := { s0 with uuid := env.uuid }
  match env.FindRequirement hd.method hd.path with
  | none =>
      let (s, ev) :=
        rejectRequest s 404 "Path does not match any requirement uri_template."
      (s, ev, FilterHeadersStatus.StopIteration)
  | some req =>
      let s := { s with requirement := some req }
      match env.FindService req.service_name with
      | none =>
          let (s, ev) := rejectRequest s 404 "required service is not configured."
          (s, ev, FilterHeadersStatus.StopIteration)
      | some svc =>
          let s := { s with service_ctx := some svc }
          if req.api_key.allow_without_api_key then
            (s, [], FilterHeadersStatus.Continue)
          else
            let s := { s with operation_name := req.operation_name }
            let (s, evs) := extractLoop env hd s req.api_key.api_keys
            let s := { s with api_name := req.api_name,
                              api_version := req.api_version,
                              state := State.Calling,
                              stopped := false,
                              token_fetcher := true }
            let evs := evs ++ [Event.fetchToken req.service_name]
            if s.state = State.Complete then
              (s, evs, FilterHeadersStatus.Continue)
            else
              ({ s with stopped := true }, evs, FilterHeadersStatus.StopIteration)

/-- Filter::onDestroy (filter.cc lines 133-142): cancel and clear any
outstanding token or check call. -/
def onDestroy (s : FilterState) : FilterState × List Event :=
  let p1 :=
    if s.token_fetcher then
      ({ s with token_fetcher := false }, [Event.cancelToken])
    else (s, [])
  let p2 :=
    if p1.1.check_call then
      ({ p1.1 with check_call := false }, [Event.cancelCheck])
    else (p1.1, [])
  (p2.1, p1.2 ++ p2.2)

/-- Filter::onTokenDone (filter.cc lines 144-176).  The success branch
dereferences service_ctx_; a null dereference is the Option monad
returning none. -/
def onTokenDone (env : Env) (s : FilterState) (status : Status)
    (token : String) : Option (FilterState × List Event) :=
  let s := { s with token_fetcher := false }
  if s.state = State.Responded then
    some (s, [])
  else if status.ok = false then
    some (rejectRequest s 401 "Failed to fetch access_token")
  else do
    let svc ← s.service_ctx
    let s := { s with token := token }
    let info : CheckRequestInfo :=
      { operation_id := s.uuid,
        operation_name := s.operation_name,
        producer_project_id := svc.config.producer_project_id,
        api_key := s.api_key }
    let suffix_uri := svc.config.service_name ++ ":check"
    let s := { s with check_call := true }
    some (s, [Event.checkCall svc.config.service_control_uri suffix_uri
                s.token info])

/-- Filter::onCheckResponse (filter.cc lines 187-225).  The translation
step dereferences service_ctx_; a null dereference is the Option monad
returning none. -/
def onCheckResponse (env : Env) (s : FilterState) (status : Status)
    (response_json : String) : Option (FilterState × List Event) :=
  let s := { s with check_call := false }
  if s.state = State.Responded then
    some (s, [])
  else if status.ok = false then
    some (rejectRequest s 401 "Check failed")
  else
    match env.jsonToCheckResponse response_json with
    | none => some (rejectRequest s 401 "Check failed")
    | some pb => do
        let svc ← s.service_ctx
        let res := env.convertCheckResponse pb svc.config.service_name
        let s := { s with check_status := res.1, check_response_info := res.2 }
        if res.1.ok = false then
          some (rejectRequest s 401 "Check failed")
        else
          let s := { s with state := State.Complete }
          some (s, [Event.incAllowed] ++
                   (if s.stopped then [Event.continueDecoding] else []))

/-- Filter::decodeData (filter.cc lines 227-233). -/
def decodeData (s : FilterState) : FilterDataStatus :=
  if s.state = State.Calling then FilterDataStatus.StopIterationAndWatermark
  else FilterDataStatus.Continue

/-- Filter::decodeTrailers (filter.cc lines 235-241). -/
def decodeTrailers (s : FilterState) : FilterTrailersStatus :=
  if s.state = State.Calling then FilterTrailersStatus.StopIteration
  else FilterTrailersStatus.Continue

/-- The ReportRequestInfo Filter::log assembles (filter.cc lines 254-279)
once service_ctx_ has been dereferenced. -/
def reportInfo (s : FilterState) (si : StreamInfo) (svc : ServiceContext) :
    ReportRequestInfo :=
  { operation_id := s.uuid,
      operation_name := s.operation_name,
      producer_project_id := svc.config.producer_project_id,
      api_key :=
        if s.check_response_info.is_api_key_valid &&
           s.check_response_info.service_is_activated then s.api_key else "",
      api_method := s.operation_name,
      api_name := s.api_name,
      api_version := s.api_version,
      log_message := s.operation_name ++ " is called",
      url := s.operation_name,
      method := s.http_method,
      check_response_info := s.check_response_info,
      response_code := si.responseCode.getD 500,
      status := s.check_status,
      request_size := si.bytesReceived,
      response_size := si.bytesSent }

/-- Filter::log (filter.cc lines 248-290): the access-log hook that builds
and fires the report.  It reads service_ctx_->config() unconditionally;
when service_ctx_ was never resolved that is a null dereference, modelled
as none. -/
def log (s : FilterState) (si : StreamInfo) :
    Option (ReportRequestInfo × List Event) := do
  let svc ← s.service_ctx
  let info := reportInfo s si svc
  let suffix_uri := svc.config.service_name ++ ":report"
  some (info, [Event.reportCall svc.config.service_control_uri suffix_uri
                 s.token info])

/-! ### Statement vocabulary and scheduler

The definitions below are not translations of further source code; they
are the vocabulary in which the theorems are stated: a characterization
of when a declared credential source overwrites the key, predicates over
the event trace, the projection of the externally observable filter
fields, and a scheduler that replays an arbitrary sequence of pipeline
events against the filter. -/

/-- Characterization of the extraction switch: the value (if any) with
which a declared source overwrites api_key_.  Query and header sources
overwrite whenever present (empty value included); cookie sources only
when the cookie value is non-empty. -/
def sourceMatch (env : Env) (hd : HeaderMap) : APIKey → Option String
  | APIKey.query q => (env.parseQueryString hd.path).lookup q
  | APIKey.header h => headersGet hd h
  | APIKey.cookie c =>
      let v := parseCookieValue hd c
      if v = "" then none else some v
  | APIKey.notSet => none

/-- The cached query-parameter map, when already parsed, is the parse of
this request's path. -/
abbrev cacheOk (env : Env) (hd : HeaderMap) (s : FilterState) : Prop :=
  s.params_parsed = true → s.parsed_params = env.parseQueryString hd.path

/-- Pure fold describing the api_key value after running the extraction
loop over a source list. -/
def keyFold (env : Env) (hd : HeaderMap) (k : String) (l : List APIKey) :
    String :=
  l.foldl (fun k src => (sourceMatch env hd src).getD k) k

/-- Event predicate: query-string parse. -/
def isParseQuery : Event → Bool
  | Event.parseQuery _ => true
  | _ => false

/-- Event predicate: outbound check call. -/
def isCheckCall : Event → Bool
  | Event.checkCall _ _ _ _ => true
  | _ => false

/-- Event predicate: denied-counter increment. -/
def isIncDenied : Event → Bool
  | Event.incDenied => true
  | _ => false

/-- The externally observable filter fields named by the teardown claim:
state, extracted key, token, check status and check outcome (cancellation
handles excluded — clearing a handle is not an observable effect). -/
def observables (s : FilterState) :
    State × String × String × Status × CheckResponseInfo :=
  (s.state, s.api_key, s.token, s.check_status, s.check_response_info)

/-- A pipeline or callback delivery the scheduler can replay against the
filter after decodeHeaders. -/
inductive Action
  | tokenDone (status : Status) (token : String)
  | checkDone (status : Status) (body : String)
  | destroy
  | dataChunk
  | trailers
deriving DecidableEq, Repr

/-- One scheduler delivery.  decodeData and decodeTrailers mutate nothing
and emit nothing; their return value is modelled separately. -/
def stepAction (env : Env) (s : FilterState) :
    Action → Option (FilterState × List Event)
  | Action.tokenDone st tok => onTokenDone env s st tok
  | Action.checkDone st body => onCheckResponse env s st body
  | Action.destroy => some (onDestroy s)
  | Action.dataChunk => some (s, [])
  | Action.trailers => some (s, [])

/-- Replay a sequence of deliveries, accumulating the event trace; none
models a crash in some delivery. -/
def run (env : Env) (s : FilterState) :
    List Action → Option (FilterState × List Event)
  | [] => some (s, [])
  | a :: rest => do
      let (s1, ev1) ← stepAction env s a
      let (s2, ev2) ← run env s1 rest
      some (s2, ev1 ++ ev2)

/-- The event trace rejectRequest emits for a failed check, shared by all
three check-failure causes. -/
def checkFailedReply : List Event :=
  [Event.incDenied, Event.sendLocalReply 401 "Check failed",
   Event.setResponseFlag]

/-! ### Concrete inputs used by closed theorems -/

/-- Environment in which no operation matches any request. -/
def env1 : Env :=
  { FindRequirement := fun _ _ => none,
    FindService := fun _ => none,
    uuid := "u1",
    parseQueryString := fun _ => [],
    jsonToCheckResponse := fun _ => none,
    convertCheckResponse := fun _ _ => ({}, {}) }

/-- A request whose path matches nothing in env1. -/
def hd1 : HeaderMap := { method := "GET", path := "/nomatch" }

/-- Stream info with no recorded response code. -/
def si0 : StreamInfo := {}

/-- An operation whose declared service is not configured. -/
def req8 : Requirement :=
  { service_name := "svc8", operation_name := "op8",
    api_name := "api8", api_version := "v1", api_key := {} }

/-- Environment that resolves every request to req8 but configures no
service. -/
def env8 : Env :=
  { FindRequirement := fun _ _ => some req8,
    FindService := fun _ => none,
    uuid := "u8",
    parseQueryString := fun _ => [],
    jsonToCheckResponse := fun _ => none,
    convertCheckResponse := fun _ _ => ({}, {}) }

/-- A request routed to req8. -/
def hd8 : HeaderMap := { method := "GET", path := "/x" }

/-- A request carrying a cookie with a non-empty value and a header that
is present with an empty value. -/
def hd9 : HeaderMap :=
  { method := "GET", path := "/v1/items",
    headers := [("h-key", "")], cookies := [("ck", "abc")] }

/-- A filter state that has been finalized (Responded) with both
cancellation handles still set. -/
def sResponded : FilterState :=
  { state := State.Responded, token_fetcher := true, check_call := true }

/-- A concrete resolved service context. -/
def svcC : ServiceContext :=
  { config := { producer_project_id := "p", service_name := "svc",
                service_control_uri := "uri" } }

/-- A filter state suspended in Calling with a resolved service. -/
def sCalling : FilterState :=
  { state := State.Calling, stopped := true, token_fetcher := true,
    service_ctx := some svcC, operation_name := "op", api_key := "k-1" }

/-- A filter state whose check outcome marked the key valid and the
service activated. -/
def sValid : FilterState :=
  { state := State.Complete, service_ctx := some svcC, api_key := "abc123",
    check_response_info := { is_api_key_valid := true,
                             service_is_activated := true } }

/-- Environment whose query-string parse yields a parameter named k, for
the multiple-source scenarios. -/
def envC2 : Env :=
  { FindRequirement := fun _ _ => none,
    FindService := fun _ => none,
    uuid := "",
    parseQueryString := fun _ => [("k", "q1")],
    jsonToCheckResponse := fun _ => none,
    convertCheckResponse := fun _ _ => ({}, {}) }

/-- A request carrying the query parameter k and a header hx. -/
def hdC2 : HeaderMap :=
  { method := "GET", path := "/v1/items?k=q1",
    headers := [("hx", "hv")], cookies := [] }

/-- Environment whose check-response deserialization fails on the body
bad-json and whose translation rejects the body denied. -/
def envC5 : Env :=
  { FindRequirement := fun _ _ => none,
    FindService := fun _ => none,
    uuid := "",
    parseQueryString := fun _ => [],
    jsonToCheckResponse := fun b =>
      if b = "bad-json" then none else some { raw := b },
    convertCheckResponse := fun pb _ =>
      if pb.raw = "denied" then ({ ok := false }, {})
      else ({ ok := true }, { is_api_key_valid := true,
                              service_is_activated := true }) }

/-! ### Extraction lemmas -/

/-- One extraction step overwrites api_key exactly as sourceMatch says,
provided the cached parameter map (if already parsed) is the parse of the
request path. -/
theorem extractStep_api_key (env : Env) (hd : HeaderMap) (s : FilterState)
    (src : APIKey) (hc : cacheOk env hd s) :
    ((extractStep env hd s src).1).api_key =
      (sourceMatch env hd src).getD s.api_key := by
  cases src with
  | query q =>
      by_cases hp : s.params_parsed = false
      · simp only [extractStep, ExtractAPIKeyFromQuery, sourceMatch, hp,
          if_pos rfl]
        cases h : (env.parseQueryString hd.path).lookup q <;> simp [h]
      · have hpt : s.params_parsed = true := by
          cases hb : s.params_parsed
          · exact absurd hb hp
          · rfl
        have hcache := hc hpt
        simp only [extractStep, ExtractAPIKeyFromQuery, sourceMatch, hp,
          if_neg hp, hcache]
        cases h : (env.parseQueryString hd.path).lookup q <;> simp [h, hcache]
  | header h =>
      simp only [extractStep, ExtractAPIKeyFromHeader, sourceMatch]
      cases hg : headersGet hd h <;> simp [hg]
  | cookie c =>
      simp only [extractStep, ExtractAPIKeyFromCookie, sourceMatch]
      by_cases hv : parseCookieValue hd c = "" <;> simp [hv]
  | notSet => simp [extractStep, sourceMatch]

/-- A non-query extraction step never touches the parameter cache. -/
theorem extractStep_params_nonquery (env : Env) (hd : HeaderMap)
    (s : FilterState) (src : APIKey) (h : ∀ q, src ≠ APIKey.query q) :
    ((extractStep env hd s src).1).params_parsed = s.params_parsed ∧
    ((extractStep env hd s src).1).parsed_params = s.parsed_params := by
  cases src with
  | query q => exact absurd rfl (h q)
  | header h2 =>
      simp only [extractStep, ExtractAPIKeyFromHeader]
      cases hg : headersGet hd h2 <;> simp [hg]
  | cookie c =>
      simp only [extractStep, ExtractAPIKeyFromCookie]
      by_cases hv : parseCookieValue hd c = "" <;> simp [hv]
  | notSet => simp [extractStep]

/-- After a query extraction step the parameter cache is parsed, and it
holds the parse of the request path unless it was already filled. -/
theorem extractStep_query_params (env : Env) (hd : HeaderMap)
    (s : FilterState) (q : String) :
    ((extractStep env hd s (APIKey.query q)).1).params_parsed = true ∧
    ((extractStep env hd s (APIKey.query q)).1).parsed_params =
      (if s.params_parsed = false then env.parseQueryString hd.path
       else s.parsed_params) := by
  by_cases hp : s.params_parsed = false
  · simp only [extractStep, ExtractAPIKeyFromQuery, if_pos hp, if_pos hp]
    cases h : (env.parseQueryString hd.path).lookup q <;> simp [h]
  · have hpt : s.params_parsed = true := by
      cases hb : s.params_parsed
      · exact absurd hb hp
      · rfl
    simp only [extractStep, ExtractAPIKeyFromQuery, if_neg hp, if_neg hp]
    cases h : s.parsed_params.lookup q <;> simp [h, hpt]

/-- One extraction step preserves cache consistency. -/
theorem extractStep_cacheOk (env : Env) (hd : HeaderMap) (s : FilterState)
    (src : APIKey) (hc : cacheOk env hd s) :
    cacheOk env hd (extractStep env hd s src).1 := by
  cases src with
  | query q =>
      intro _
      rcases extractStep_query_params env hd s q with ⟨_, h2⟩
      rw [h2]
      by_cases hp : s.params_parsed = false
      · simp [hp]
      · have hpt : s.params_parsed = true := by
          cases hb : s.params_parsed
          · exact absurd hb hp
          · rfl
        simp [hp, hc hpt]
  | header h2 =>
      intro hpt
      rcases extractStep_params_nonquery env hd s (APIKey.header h2)
        (fun q hq => APIKey.noConfusion hq) with ⟨h1, hps⟩
      rw [hps]
      exact hc (h1 ▸ hpt)
  | cookie c =>
      intro hpt
      rcases extractStep_params_nonquery env hd s (APIKey.cookie c)
        (fun q hq => APIKey.noConfusion hq) with ⟨h1, hps⟩
      rw [hps]
      exact hc (h1 ▸ hpt)
  | notSet =>
      intro hpt
      rcases extractStep_params_nonquery env hd s APIKey.notSet
        (fun q hq => APIKey.noConfusion hq) with ⟨h1, hps⟩
      rw [hps]
      exact hc (h1 ▸ hpt)

/-- One extraction step emits either nothing or a single parse event for
this request's path. -/
theorem extractStep_events (env : Env) (hd : HeaderMap) (s : FilterState)
    (src : APIKey) :
    (extractStep env hd s src).2 = [] ∨
    (extractStep env hd s src).2 = [Event.parseQuery hd.path] := by
  cases src with
  | query q =>
      by_cases hp : s.params_parsed = false
      · simp only [extractStep, ExtractAPIKeyFromQuery, hp, if_pos rfl]
        cases h : (env.parseQueryString hd.path).lookup q <;> simp [h]
      · simp only [extractStep, ExtractAPIKeyFromQuery, hp, if_neg hp]
        cases h : s.parsed_params.lookup q <;> simp [h]
  | header h => simp [extractStep]
  | cookie c => simp [extractStep]
  | notSet => simp [extractStep]

/-- Once the parameter map is parsed, an extraction step emits no event
and leaves the cache untouched. -/
theorem extractStep_no_reparse (env : Env) (hd : HeaderMap)
    (s : FilterState) (src : APIKey) (hp : s.params_parsed = true) :
    (extractStep env hd s src).2 = [] ∧
    ((extractStep env hd s src).1).params_parsed = true ∧
    ((extractStep env hd s src).1).parsed_params = s.parsed_params := by
  cases src with
  | query q =>
      have hp' : ¬(s.params_parsed = false) := by simp [hp]
      simp only [extractStep, ExtractAPIKeyFromQuery, if_neg hp']
      cases h : s.parsed_params.lookup q <;> simp [h, hp]
  | header h =>
      simp only [extractStep, ExtractAPIKeyFromHeader]
      cases hg : headersGet hd h <;> simp [hg, hp]
  | cookie c =>
      simp only [extractStep, ExtractAPIKeyFromCookie]
      by_cases hv : parseCookieValue hd c = "" <;> simp [hv, hp]
  | notSet => simp [extractStep, hp]

/-- The extraction loop computes the pure fold of sourceMatch over the
declared sources. -/
theorem extractLoop_api_key (env : Env) (hd : HeaderMap) :
    ∀ (l : List APIKey) (s : FilterState), cacheOk env hd s →
      ((extractLoop env hd s l).1).api_key = keyFold env hd s.api_key l := by
  intro l
  induction l with
  | nil => intro s _; simp [extractLoop, keyFold]
  | cons src rest ih =>
      intro s hc
      simp only [extractLoop, keyFold, List.foldl_cons]
      rw [ih (extractStep env hd s src).1 (extractStep_cacheOk env hd s src hc)]
      rw [keyFold, extractStep_api_key env hd s src hc]

/-- Every event the extraction loop emits is a query-string parse. -/
theorem extractLoop_events (env : Env) (hd : HeaderMap) :
    ∀ (l : List APIKey) (s : FilterState),
      ∀ e ∈ (extractLoop env hd s l).2, e = Event.parseQuery hd.path := by
  intro l
  induction l with
  | nil => intro s e he; simp [extractLoop] at he
  | cons src rest ih =>
      intro s e he
      simp only [extractLoop, List.mem_append] at he
      rcases he with he | he
      · rcases extractStep_events env hd s src with h | h <;> rw [h] at he
        · simp at he
        · simpa using he
      · exact ih (extractStep env hd s src).1 e he

/-- Once the parameter map is parsed, the rest of the loop emits no event
and leaves the cache untouched. -/
theorem extractLoop_no_reparse (env : Env) (hd : HeaderMap) :
    ∀ (l : List APIKey) (s : FilterState), s.params_parsed = true →
      ((extractLoop env hd s l).2).filter isParseQuery = [] ∧
      ((extractLoop env hd s l).1).params_parsed = true ∧
      ((extractLoop env hd s l).1).parsed_params = s.parsed_params := by
  intro l
  induction l with
  | nil => intro s hp; simp [extractLoop, hp]
  | cons src rest ih =>
      intro s hp
      rcases extractStep_no_reparse env hd s src hp with ⟨he, hp1, hpp1⟩
      rcases ih (extractStep env hd s src).1 hp1 with ⟨ihe, ihp, ihpp⟩
      refine ⟨?_, ihp, by simp only [extractLoop]; rw [ihpp, hpp1]⟩
      simp only [extractLoop, List.filter_append, he, ihe]
      simp

/-- Starting from an unparsed cache, the loop parses the query string
either never or exactly once, and when it does, the cache holds the parse
of this request's path. -/
theorem extractLoop_parse_once (env : Env) (hd : HeaderMap) :
    ∀ (l : List APIKey) (s : FilterState), s.params_parsed = false →
      (((extractLoop env hd s l).2).filter isParseQuery = [] ∧
         ((extractLoop env hd s l).1).params_parsed = false ∧
         ((extractLoop env hd s l).1).parsed_params = s.parsed_params) ∨
      (((extractLoop env hd s l).2).filter isParseQuery =
          [Event.parseQuery hd.path] ∧
         ((extractLoop env hd s l).1).params_parsed = true ∧
         ((extractLoop env hd s l).1).parsed_params =
           env.parseQueryString hd.path) := by
  intro l
  induction l with
  | nil => intro s hp; left; simp [extractLoop, hp]
  | cons src rest ih =>
      intro s hp
      cases src with
      | query q =>
          right
          rcases extractStep_query_params env hd s q with ⟨h1, h2⟩
          rw [if_pos hp] at h2
          have hev : (extractStep env hd s (APIKey.query q)).2 =
              [Event.parseQuery hd.path] := by
            simp only [extractStep, ExtractAPIKeyFromQuery, if_pos hp]
            cases h : (env.parseQueryString hd.path).lookup q <;> simp [h]
          rcases extractLoop_no_reparse env hd rest
              (extractStep env hd s (APIKey.query q)).1 h1 with ⟨re, rp, rpp⟩
          refine ⟨?_, rp, by simp only [extractLoop]; rw [rpp, h2]⟩
          simp only [extractLoop, List.filter_append, hev, re]
          simp [isParseQuery]
      | header h2 =>
          have hev : (extractStep env hd s (APIKey.header h2)).2 = [] := rfl
          rcases extractStep_params_nonquery env hd s (APIKey.header h2)
            (fun q hq => APIKey.noConfusion hq) with ⟨hps, hpp⟩
          have hp1 : ((extractStep env hd s (APIKey.header h2)).1).params_parsed
              = false := by rw [hps, hp]
          rcases ih (extractStep env hd s (APIKey.header h2)).1 hp1 with
            ⟨e, p, pp⟩ | ⟨e, p, pp⟩
          · left
            refine ⟨?_, p, by simp only [extractLoop]; rw [pp, hpp]⟩
            simp only [extractLoop, List.filter_append, hev, e]
            simp
          · right
            refine ⟨?_, p, pp⟩
            simp only [extractLoop, List.filter_append, hev, e]
            simp
      | cookie c =>
          have hev : (extractStep env hd s (APIKey.cookie c)).2 = [] := rfl
          rcases extractStep_params_nonquery env hd s (APIKey.cookie c)
            (fun q hq => APIKey.noConfusion hq) with ⟨hps, hpp⟩
          have hp1 : ((extractStep env hd s (APIKey.cookie c)).1).params_parsed
              = false := by rw [hps, hp]
          rcases ih (extractStep env hd s (APIKey.cookie c)).1 hp1 with
            ⟨e, p, pp⟩ | ⟨e, p, pp⟩
          · left
            refine ⟨?_, p, by simp only [extractLoop]; rw [pp, hpp]⟩
            simp only [extractLoop, List.filter_append, hev, e]
            simp
          · right
            refine ⟨?_, p, pp⟩
            simp only [extractLoop, List.filter_append, hev, e]
            simp
      | notSet =>
          have hev : (extractStep env hd s APIKey.notSet).2 = [] := rfl
          rcases extractStep_params_nonquery env hd s APIKey.notSet
            (fun q hq => APIKey.noConfusion hq) with ⟨hps, hpp⟩
          have hp1 : ((extractStep env hd s APIKey.notSet).1).params_parsed
              = false := by rw [hps, hp]
          rcases ih (extractStep env hd s APIKey.notSet).1 hp1 with
            ⟨e, p, pp⟩ | ⟨e, p, pp⟩
          · left
            refine ⟨?_, p, by simp only [extractLoop]; rw [pp, hpp]⟩
            simp only [extractLoop, List.filter_append, hev, e]
            simp
          · right
            refine ⟨?_, p, pp⟩
            simp only [extractLoop, List.filter_append, hev, e]
            simp

/-- Folding over sources none of which match leaves the key unchanged. -/
theorem keyFold_none (env : Env) (hd : HeaderMap) :
    ∀ (l : List APIKey) (k : String),
      (∀ t ∈ l, sourceMatch env hd t = none) → keyFold env hd k l = k := by
  intro l
  induction l with
  | nil => intro k _; rfl
  | cons t rest ih =>
      intro k h
      rw [keyFold, List.foldl_cons, h t (by simp), Option.getD_none]
      exact ih k (fun u hu => h u (by simp [hu]))

/-! ### Teardown and scheduler lemmas -/

/-- onDestroy never changes the state field. -/
theorem onDestroy_state (s : FilterState) :
    ((onDestroy s).1).state = s.state := by
  simp only [onDestroy]
  by_cases h1 : s.token_fetcher <;> by_cases h2 : s.check_call <;>
    simp [h1, h2]

/-- onDestroy emits only cancellation events, never a check call. -/
theorem onDestroy_no_checkCall (s : FilterState) :
    ((onDestroy s).2).filter isCheckCall = [] := by
  simp only [onDestroy]
  by_cases h1 : s.token_fetcher <;> by_cases h2 : s.check_call <;>
    simp [h1, h2, isCheckCall]

/-- From a finalized (Responded) state, every delivery succeeds (no
crash), stays Responded and emits no check call. -/
theorem stepAction_responded (env : Env) (s : FilterState) (a : Action)
    (h : s.state = State.Responded) :
    ∃ s1 evs, stepAction env s a = some (s1, evs) ∧
      s1.state = State.Responded ∧ evs.filter isCheckCall = [] := by
  cases a with
  | tokenDone st tok =>
      refine ⟨{ s with token_fetcher := false }, [], ?_, h, rfl⟩
      simp [stepAction, onTokenDone, h]
  | checkDone st body =>
      refine ⟨{ s with check_call := false }, [], ?_, h, rfl⟩
      simp [stepAction, onCheckResponse, h]
  | destroy =>
      exact ⟨(onDestroy s).1, (onDestroy s).2, rfl,
             by rw [onDestroy_state]; exact h, onDestroy_no_checkCall s⟩
  | dataChunk => exact ⟨s, [], rfl, h, rfl⟩
  | trailers => exact ⟨s, [], rfl, h, rfl⟩

/-- From a finalized state, no replay of deliveries ever crashes, leaves
Responded or emits a check call. -/
theorem run_responded (env : Env) :
    ∀ (acts : List Action) (s : FilterState), s.state = State.Responded →
      ∃ s1 evs, run env s acts = some (s1, evs) ∧
        s1.state = State.Responded ∧ evs.filter isCheckCall = [] := by
  intro acts
  induction acts with
  | nil => intro s h; exact ⟨s, [], rfl, h, rfl⟩
  | cons a rest ih =>
      intro s h
      rcases stepAction_responded env s a h with ⟨s1, ev1, hstep, hs1, hf1⟩
      rcases ih s1 hs1 with ⟨s2, ev2, hrun, hs2, hf2⟩
      refine ⟨s2, ev1 ++ ev2, ?_, hs2, ?_⟩
      · simp [run, hstep, hrun]
      · simp [List.filter_append, hf1, hf2]

/-! ### Claim theorems -/

/-- C1: a request rejected because no operation matched, or because the
matched operation's service is not configured, is answered 404 with no
token, check or report call issued by the decode path; but the
end-of-exchange reporting hook is NOT skipped — evaluated on the
resulting state it dereferences the absent service context (modelled as
none, the null-dereference crash) instead of skipping.  This exhibits the
code bug the spec's section 4.4 guard corrects. -/
theorem C1_early_reject_404_no_calls_but_log_dereferences :
    (decodeHeaders env1 {} hd1).2.1 =
      [Event.incDenied,
       Event.sendLocalReply 404 "Path does not match any requirement uri_template.",
       Event.setResponseFlag] ∧
    (decodeHeaders env1 {} hd1).2.2 = FilterHeadersStatus.StopIteration ∧
    log (decodeHeaders env1 {} hd1).1 si0 = none ∧
    (decodeHeaders env8 {} hd8).2.1 =
      [Event.incDenied,
       Event.sendLocalReply 404 "required service is not configured.",
       Event.setResponseFlag] ∧
    log (decodeHeaders env8 {} hd8).1 si0 = none := by
  refine ⟨?_, ?_, ?_, ?_, ?_⟩ <;> decide

/-- C2: over any declared source list, extraction tries sources in order
and every matching source overwrites the key, so the retained key is the
value of the last matching source; non-matching sources change nothing
and the loop raises no error (its only events are query-string parses). -/
theorem C2_last_matching_source_wins (env : Env) (hd : HeaderMap)
    (l1 l2 : List APIKey) (src : APIKey) (v : String)
    (hm : sourceMatch env hd src = some v)
    (hrest : ∀ t ∈ l2, sourceMatch env hd t = none) :
    ((extractLoop env hd {} (l1 ++ src :: l2)).1).api_key = v ∧
    ∀ e ∈ (extractLoop env hd {} (l1 ++ src :: l2)).2,
      e = Event.parseQuery hd.path := by
  constructor
  · have hca : cacheOk env hd ({} : FilterState) :=
      fun h => Bool.noConfusion h
    rw [extractLoop_api_key env hd _ {} hca]
    rw [keyFold, List.foldl_append, List.foldl_cons, hm, Option.getD_some]
    exact keyFold_none env hd l2 v hrest
  · exact extractLoop_events env hd _ {}

/-- C2 witness: sources S1..S5 where S2 (query k) and S4 (header hx) both
match; the retained key is the value of S4, the last matching source. -/
theorem C2_witness :
    sourceMatch envC2 hdC2 (APIKey.header "hx") = some "hv" ∧
    (∀ t ∈ [APIKey.query "absent2"], sourceMatch envC2 hdC2 t = none) ∧
    (((extractLoop envC2 hdC2 {}
        ([APIKey.query "absent", APIKey.query "k", APIKey.cookie "nope"] ++
          APIKey.header "hx" :: [APIKey.query "absent2"])).1).api_key = "hv" ∧
     ∀ e ∈ (extractLoop envC2 hdC2 {}
        ([APIKey.query "absent", APIKey.query "k", APIKey.cookie "nope"] ++
          APIKey.header "hx" :: [APIKey.query "absent2"])).2,
       e = Event.parseQuery hdC2.path) :=
  ⟨by decide,
   by intro t ht; rw [List.mem_singleton] at ht; subst ht; decide,
   C2_last_matching_source_wins envC2 hdC2
     [APIKey.query "absent", APIKey.query "k", APIKey.cookie "nope"]
     [APIKey.query "absent2"] (APIKey.header "hx") "hv" (by decide)
     (by intro t ht; rw [List.mem_singleton] at ht; subst ht; decide)⟩

/-- C3: teardown is idempotent (a second onDestroy changes nothing and
emits nothing) and a token or check callback arriving after the request
is finalized (state Responded) crashes nothing, emits nothing and leaves
every observable field (state, key, token, check status, check outcome)
unchanged. -/
theorem C3_teardown_idempotent_late_callbacks_noop (env : Env)
    (s : FilterState) (st : Status) (tok body : String)
    (h : s.state = State.Responded) :
    onDestroy (onDestroy s).1 = ((onDestroy s).1, []) ∧
    (∃ s1, onTokenDone env s st tok = some (s1, []) ∧
       observables s1 = observables s) ∧
    (∃ s2, onCheckResponse env s st body = some (s2, []) ∧
       observables s2 = observables s) := by
  refine ⟨?_, ⟨{ s with token_fetcher := false }, ?_, rfl⟩,
          ⟨{ s with check_call := false }, ?_, rfl⟩⟩
  · simp only [onDestroy]
    by_cases h1 : s.token_fetcher <;> by_cases h2 : s.check_call <;>
      simp [h1, h2]
  · simp [onTokenDone, h]
  · simp [onCheckResponse, h]

/-- C3 witness at a concrete finalized state with both handles set. -/
theorem C3_witness :
    sResponded.state = State.Responded ∧
    (onDestroy (onDestroy sResponded).1 = ((onDestroy sResponded).1, []) ∧
     (∃ s1, onTokenDone env1 sResponded {} "" = some (s1, []) ∧
        observables s1 = observables sResponded) ∧
     (∃ s2, onCheckResponse env1 sResponded {} "" = some (s2, []) ∧
        observables s2 = observables sResponded)) :=
  ⟨rfl, C3_teardown_idempotent_late_callbacks_noop env1 sResponded {} "" "" rfl⟩

/-- C4: a failed token fetch on a live request rejects with 401 (reason
"Failed to fetch access_token"), transitions to Responded, and no check
call is emitted then or by any later delivery. -/
theorem C4_token_failure_rejects_401_no_check_ever (env : Env)
    (s : FilterState) (st : Status) (tok : String)
    (hs : s.state ≠ State.Responded) (hf : st.ok = false) :
    onTokenDone env s st tok =
      some ({ s with token_fetcher := false, state := State.Responded },
            [Event.incDenied,
             Event.sendLocalReply 401 "Failed to fetch access_token",
             Event.setResponseFlag]) ∧
    ∀ acts, ∃ s2 evs,
      run env { s with token_fetcher := false, state := State.Responded }
          acts = some (s2, evs) ∧
        evs.filter isCheckCall = [] := by
  constructor
  · have hs2 : ¬(({ s with token_fetcher := false } :
        FilterState).state = State.Responded) := hs
    simp [onTokenDone, hs2, hf, rejectRequest]
  · intro acts
    rcases run_responded env acts
        { s with token_fetcher := false, state := State.Responded } rfl with
      ⟨s2, evs, h1, _, h2⟩
    exact ⟨s2, evs, h1, h2⟩

/-- C4 witness: a Calling-state request whose token fetch fails. -/
theorem C4_witness :
    sCalling.state ≠ State.Responded ∧
    Status.ok { ok := false } = false ∧
    (onTokenDone env1 sCalling { ok := false } "" =
       some ({ sCalling with
                token_fetcher := false
                state := State.Responded },
             [Event.incDenied,
              Event.sendLocalReply 401 "Failed to fetch access_token",
              Event.setResponseFlag]) ∧
     ∀ acts, ∃ s2 evs,
       run env1 { sCalling with
                   token_fetcher := false
                   state := State.Responded } acts = some (s2, evs) ∧
         evs.filter isCheckCall = []) :=
  ⟨by decide, rfl,
   C4_token_failure_rejects_401_no_check_ever env1 sCalling { ok := false }
     "" (by decide) rfl⟩

/-- C5: every check-call failure — transport (non-ok status), a body that
fails deserialization, or a non-ok translation result — rejects the live
request with status 401 and the one shared reason text, the
checkFailedReply trace. -/
theorem C5_check_failures_reject_401_same_reason (env : Env)
    (s : FilterState) (st : Status) (body : String) (pb : CheckResponsePb)
    (svc : ServiceContext) (hs : s.state ≠ State.Responded) :
    (st.ok = false →
       onCheckResponse env s st body =
         some ({ s with check_call := false, state := State.Responded },
               checkFailedReply)) ∧
    (st.ok = true → env.jsonToCheckResponse body = none →
       onCheckResponse env s st body =
         some ({ s with check_call := false, state := State.Responded },
               checkFailedReply)) ∧
    (st.ok = true → env.jsonToCheckResponse body = some pb →
       s.service_ctx = some svc →
       (env.convertCheckResponse pb svc.config.service_name).1.ok = false →
       onCheckResponse env s st body =
         some ({ s with
                 check_call := false
                 check_status :=
                   (env.convertCheckResponse pb svc.config.service_name).1
                 check_response_info :=
                   (env.convertCheckResponse pb svc.config.service_name).2
                 state := State.Responded },
               checkFailedReply)) := by
  have hs2 : ¬(({ s with check_call := false } :
      FilterState).state = State.Responded) := hs
  refine ⟨?_, ?_, ?_⟩
  · intro hf
    simp [onCheckResponse, hs2, hf, rejectRequest, checkFailedReply]
  · intro ht hj
    simp [onCheckResponse, hs2, ht, hj, rejectRequest, checkFailedReply]
  · intro ht hj hsvc hconv
    simp [onCheckResponse, hs2, ht, hj, hsvc, hconv, rejectRequest,
          checkFailedReply]

/-- C5 witness: a live request whose check response translates to a
non-ok status is rejected 401 with the shared reason trace. -/
theorem C5_witness :
    sCalling.state ≠ State.Responded ∧
    Status.ok { ok := true } = true ∧
    envC5.jsonToCheckResponse "denied" = some { raw := "denied" } ∧
    sCalling.service_ctx = some svcC ∧
    (envC5.convertCheckResponse { raw := "denied" }
       svcC.config.service_name).1.ok = false ∧
    onCheckResponse envC5 sCalling { ok := true } "denied" =
      some ({ sCalling with
              check_call := false
              check_status :=
                (envC5.convertCheckResponse { raw := "denied" }
                  svcC.config.service_name).1
              check_response_info :=
                (envC5.convertCheckResponse { raw := "denied" }
                  svcC.config.service_name).2
              state := State.Responded },
            checkFailedReply) :=
  ⟨by decide, rfl, by decide, rfl, by decide,
   (C5_check_failures_reject_401_same_reason envC5 sCalling { ok := true }
       "denied" { raw := "denied" } svcC (by decide)).2.2 rfl (by decide)
     rfl (by decide)⟩

/-- C6: whenever the report is built (service context present), its
payload carries the extracted key exactly when the check outcome marked
the key valid and the service activated; otherwise the key field is the
unset (empty) default even if extraction found a value. -/
theorem C6_report_key_iff_valid_and_activated (s : FilterState)
    (si : StreamInfo) (svc : ServiceContext)
    (h : s.service_ctx = some svc) :
    ∃ evs, log s si = some (reportInfo s si svc, evs) ∧
      (s.check_response_info.is_api_key_valid = true ∧
         s.check_response_info.service_is_activated = true →
           (reportInfo s si svc).api_key = s.api_key) ∧
      (¬(s.check_response_info.is_api_key_valid = true ∧
           s.check_response_info.service_is_activated = true) →
           (reportInfo s si svc).api_key = "") := by
  refine ⟨[Event.reportCall svc.config.service_control_uri
             (svc.config.service_name ++ ":report") s.token
             (reportInfo s si svc)], by simp [log, h], ?_, ?_⟩
  · rintro ⟨h1, h2⟩
    simp [reportInfo, h1, h2]
  · intro hn
    have : (s.check_response_info.is_api_key_valid &&
        s.check_response_info.service_is_activated) = false := by
      cases hv : s.check_response_info.is_api_key_valid
      · simp
      · cases ha : s.check_response_info.service_is_activated
        · simp
        · exact absurd ⟨hv, ha⟩ hn
    simp [reportInfo, this]

/-- C6 witness: with a valid-and-activated outcome the report carries the
extracted key abc123. -/
theorem C6_witness :
    sValid.service_ctx = some svcC ∧
    (∃ evs, log sValid si0 = some (reportInfo sValid si0 svcC, evs) ∧
      (sValid.check_response_info.is_api_key_valid = true ∧
         sValid.check_response_info.service_is_activated = true →
           (reportInfo sValid si0 svcC).api_key = sValid.api_key) ∧
      (¬(sValid.check_response_info.is_api_key_valid = true ∧
           sValid.check_response_info.service_is_activated = true) →
           (reportInfo sValid si0 svcC).api_key = "")) :=
  ⟨rfl, C6_report_key_iff_valid_and_activated sValid si0 svcC rfl⟩

/-- C7: a body chunk or trailer delivery returns the stop signal exactly
while the state is Calling, and the continue signal otherwise. -/
theorem C7_body_and_trailers_gated_on_calling (s : FilterState) :
    (decodeData s = FilterDataStatus.StopIterationAndWatermark ↔
       s.state = State.Calling) ∧
    (decodeTrailers s = FilterTrailersStatus.StopIteration ↔
       s.state = State.Calling) ∧
    (s.state ≠ State.Calling →
       decodeData s = FilterDataStatus.Continue ∧
       decodeTrailers s = FilterTrailersStatus.Continue) := by
  by_cases h : s.state = State.Calling <;>
    simp [decodeData, decodeTrailers, h]

/-- C7 witness: held back while Calling, passed through once Complete. -/
theorem C7_witness :
    decodeData sCalling = FilterDataStatus.StopIterationAndWatermark ∧
    decodeData sValid = FilterDataStatus.Continue ∧
    decodeTrailers sValid = FilterTrailersStatus.Continue :=
  ⟨(C7_body_and_trailers_gated_on_calling sCalling).1.mpr rfl,
   ((C7_body_and_trailers_gated_on_calling sValid).2.2 (by decide)).1,
   ((C7_body_and_trailers_gated_on_calling sValid).2.2 (by decide)).2⟩

/-- C8 counterexample: on a request matching an operation whose service
is not configured, the code rejects with 404 but the denied counter IS
incremented (exactly once), contradicting the claim that it is left
untouched. -/
theorem C8_counterexample_denied_counter_incremented :
    (decodeHeaders env8 {} hd8).2.1 =
      [Event.incDenied,
       Event.sendLocalReply 404 "required service is not configured.",
       Event.setResponseFlag] ∧
    (((decodeHeaders env8 {} hd8).2.1).filter isIncDenied).length = 1 := by
  refine ⟨?_, ?_⟩ <;> decide

/-- C8 amended: a request matching an operation whose declared service is
not configured is rejected 404 and the denied counter is incremented
exactly once by rejectRequest; no token, check or report call is issued
(the full event trace is the rejection trace). -/
theorem C8_unconfigured_service_404_denied_incremented (env : Env)
    (hd : HeaderMap) (req : Requirement)
    (h1 : env.FindRequirement hd.method hd.path = some req)
    (h2 : env.FindService req.service_name = none) :
    ∃ s1, decodeHeaders env {} hd =
        (s1, [Event.incDenied,
              Event.sendLocalReply 404 "required service is not configured.",
              Event.setResponseFlag],
         FilterHeadersStatus.StopIteration) ∧
      s1.state = State.Responded := by
  refine ⟨{ uuid := env.uuid, requirement := some req,
            state := State.Responded }, ?_, rfl⟩
  simp [decodeHeaders, h1, h2, rejectRequest]

/-- C8 witness at the concrete unconfigured-service environment. -/
theorem C8_witness :
    env8.FindRequirement hd8.method hd8.path = some req8 ∧
    env8.FindService req8.service_name = none ∧
    (∃ s1, decodeHeaders env8 {} hd8 =
        (s1, [Event.incDenied,
              Event.sendLocalReply 404 "required service is not configured.",
              Event.setResponseFlag],
         FilterHeadersStatus.StopIteration) ∧
      s1.state = State.Responded) :=
  ⟨rfl, rfl,
   C8_unconfigured_service_404_denied_incremented env8 hd8 req8 rfl rfl⟩

/-- C9 counterexample: a cookie source first extracts abc; a header
source that is present with an EMPTY value then overwrites it with the
empty string, contradicting the claim that a present-but-empty source
never overwrites. -/
theorem C9_counterexample_empty_header_overwrites :
    ((extractLoop env1 hd9 {} [APIKey.cookie "ck"]).1).api_key = "abc" ∧
    ((extractLoop env1 hd9 {}
        [APIKey.cookie "ck", APIKey.header "h-key"]).1).api_key = "" := by
  refine ⟨?_, ?_⟩ <;> decide

/-- C9 amended: a query or header source overwrites apiKey exactly when
the source is present in the request, even with an empty value; only a
cookie source requires a non-empty value to overwrite.  A non-matching
source leaves apiKey unchanged (and raises no error). -/
theorem C9_overwrite_characterization (env : Env) (hd : HeaderMap)
    (s : FilterState) (src : APIKey) (v : String)
    (hc : cacheOk env hd s) :
    (sourceMatch env hd src = some v →
       ((extractStep env hd s src).1).api_key = v) ∧
    (sourceMatch env hd src = none →
       ((extractStep env hd s src).1).api_key = s.api_key) := by
  have h := extractStep_api_key env hd s src hc
  constructor
  · intro hm; rw [h, hm]; rfl
  · intro hm; rw [h, hm]; rfl

/-- C9 witness: the present-but-empty header matches with the empty
string and overwrites with it. -/
theorem C9_witness :
    cacheOk env1 hd9 ({} : FilterState) ∧
    sourceMatch env1 hd9 (APIKey.header "h-key") = some "" ∧
    ((extractStep env1 hd9 {} (APIKey.header "h-key")).1).api_key = "" :=
  ⟨fun h => Bool.noConfusion h, by decide,
   (C9_overwrite_characterization env1 hd9 {} (APIKey.header "h-key") ""
      (fun h => Bool.noConfusion h)).1 (by decide)⟩

/-- C10: over any declared source list the query string is parsed at most
once — the trace holds zero or one parse event, for this request's path —
and once parsed the cached map every later query source consults is
exactly the parse of the path. -/
theorem C10_query_string_parsed_at_most_once (env : Env) (hd : HeaderMap)
    (l : List APIKey) :
    (((extractLoop env hd {} l).2).filter isParseQuery = [] ∨
     ((extractLoop env hd {} l).2).filter isParseQuery =
       [Event.parseQuery hd.path]) ∧
    (((extractLoop env hd {} l).1).params_parsed = true →
       ((extractLoop env hd {} l).1).parsed_params =
         env.parseQueryString hd.path) := by
  rcases extractLoop_parse_once env hd l {} rfl with ⟨e, p, _⟩ | ⟨e, p, pp⟩
  · exact ⟨Or.inl e, fun ht => absurd ht (by simp [p])⟩
  · exact ⟨Or.inr e, fun _ => pp⟩

/-- C10 witness: two query sources, one parse event. -/
theorem C10_witness :
    (((extractLoop envC2 hdC2 {} [APIKey.query "k", APIKey.query "absent"]).2).filter
        isParseQuery = [] ∨
     ((extractLoop envC2 hdC2 {} [APIKey.query "k", APIKey.query "absent"]).2).filter
        isParseQuery = [Event.parseQuery hdC2.path]) ∧
    (((extractLoop envC2 hdC2 {} [APIKey.query "k", APIKey.query "absent"]).1).params_parsed
        = true →
       ((extractLoop envC2 hdC2 {} [APIKey.query "k", APIKey.query "absent"]).1).parsed_params
         = envC2.parseQueryString hdC2.path) :=
  C10_query_string_parsed_at_most_once envC2 hdC2
    [APIKey.query "k", APIKey.query "absent"]

end ESPv2
